import Mathlib

set_option maxRecDepth 100000

/-!
# Verification of the ImageResizeAI video-generation core

Shallow embedding of `src/pygento/agento_video.py` (classes
`GeminiVideoService` and `GeminiVideoGenerator`): MD5-based cache-key
derivation, cache lookup, prompt enhancement, request-payload
construction, the polling loop, result extraction and video download.
Bytes are modelled as `Nat` values `< 256`, byte strings as `List Nat`,
and the Gemini JSON payloads as a small JSON value type.
-/

namespace ImageResizeAI

/-! ## Bytes, hex rendering and UTF-8 encoding -/

/-- One hexadecimal digit (lower case), for `0 ≤ n < 16`. -/
def hexDigit (n : Nat) : Char :=
  if n < 10 then Char.ofNat (48 + n) else Char.ofNat (87 + n)

/-- Two-digit lower-case hex rendering of one byte. -/
def byteToHex (b : Nat) : String :=
  String.mk [hexDigit (b / 16 % 16), hexDigit (b % 16)]

/-- Lower-case hex rendering of a byte string (Python `hexdigest`). -/
def bytesToHex : List Nat → String
  | [] => ""
  | b :: bs => byteToHex b ++ bytesToHex bs

/-- UTF-8 encoding of a single character (Python `str.encode`). -/
def utf8Char (c : Char) : List Nat :=
  let n := c.toNat
  if n < 128 then [n]
  else if n < 2048 then [192 + n / 64, 128 + n % 64]
  else if n < 65536 then [224 + n / 4096, 128 + n / 64 % 64, 128 + n % 64]
  else [240 + n / 262144, 128 + n / 4096 % 64, 128 + n / 64 % 64, 128 + n % 64]

/-- UTF-8 encoding of a string as a byte list (Python `str.encode()`). -/
def utf8Bytes (s : String) : List Nat :=
  s.data.foldr (fun c acc => utf8Char c ++ acc) []

/-! ## MD5 (RFC 1321), executable over byte lists

`hashlib.md5` from the source, implemented over `Nat` with explicit
`% 2 ^ 32` reductions. -/

/-- The word modulus `2 ^ 32`. -/
def m32 : Nat := 4294967296

/-- Addition modulo `2 ^ 32`. -/
def add32 (a b : Nat) : Nat := (a + b) % m32

/-- Bitwise complement of a 32-bit word. -/
def not32 (a : Nat) : Nat := 4294967295 - a % m32

/-- Left rotation of a 32-bit word by `s` places (`0 < s < 32`). -/
def rotl32 (x s : Nat) : Nat := (x % m32) * 2 ^ s % m32 + x % m32 / 2 ^ (32 - s)

/-- MD5 round function F. -/
def md5FunF (b c d : Nat) : Nat := Nat.lor (Nat.land b c) (Nat.land (not32 b) d)

/-- MD5 round function G. -/
def md5FunG (b c d : Nat) : Nat := Nat.lor (Nat.land d b) (Nat.land (not32 d) c)

/-- MD5 round function H. -/
def md5FunH (b c d : Nat) : Nat := Nat.xor b (Nat.xor c d)

/-- MD5 round function I. -/
def md5FunI (b c d : Nat) : Nat := Nat.xor c (Nat.lor b (not32 d))

/-- The 64 MD5 sine-derived constants. -/
def md5K : List Nat :=
  [0xd76aa478, 0xe8c7b756, 0x242070db, 0xc1bdceee,
   0xf57c0faf, 0x4787c62a, 0xa8304613, 0xfd469501,
   0x698098d8, 0x8b44f7af, 0xffff5bb1, 0x895cd7be,
   0x6b901122, 0xfd987193, 0xa679438e, 0x49b40821,
   0xf61e2562, 0xc040b340, 0x265e5a51, 0xe9b6c7aa,
   0xd62f105d, 0x02441453, 0xd8a1e681, 0xe7d3fbc8,
   0x21e1cde6, 0xc33707d6, 0xf4d50d87, 0x455a14ed,
   0xa9e3e905, 0xfcefa3f8, 0x676f02d9, 0x8d2a4c8a,
   0xfffa3942, 0x8771f681, 0x6d9d6122, 0xfde5380c,
   0xa4beea44, 0x4bdecfa9, 0xf6bb4b60, 0xbebfbc70,
   0x289b7ec6, 0xeaa127fa, 0xd4ef3085, 0x04881d05,
   0xd9d4d039, 0xe6db99e5, 0x1fa27cf8, 0xc4ac5665,
   0xf4292244, 0x432aff97, 0xab9423a7, 0xfc93a039,
   0x655b59c3, 0x8f0ccc92, 0xffeff47d, 0x85845dd1,
   0x6fa87e4f, 0xfe2ce6e0, 0xa3014314, 0x4e0811a1,
   0xf7537e82, 0xbd3af235, 0x2ad7d2bb, 0xeb86d391]

/-- The 64 MD5 per-round left-rotation amounts. -/
def md5S : List Nat :=
  [7, 12, 17, 22, 7, 12, 17, 22, 7, 12, 17, 22, 7, 12, 17, 22,
   5, 9, 14, 20, 5, 9, 14, 20, 5, 9, 14, 20, 5, 9, 14, 20,
   4, 11, 16, 23, 4, 11, 16, 23, 4, 11, 16, 23, 4, 11, 16, 23,
   6, 10, 15, 21, 6, 10, 15, 21, 6, 10, 15, 21, 6, 10, 15, 21]

/-- Message-word index used in MD5 round `i`. -/
def md5G (i : Nat) : Nat :=
  if i < 16 then i
  else if i < 32 then (5 * i + 1) % 16
  else if i < 48 then (3 * i + 5) % 16
  else (7 * i) % 16

/-- Round function applied in MD5 round `i`. -/
def md5F (i b c d : Nat) : Nat :=
  if i < 16 then md5FunF b c d
  else if i < 32 then md5FunG b c d
  else if i < 48 then md5FunH b c d
  else md5FunI b c d

/-- Little-endian 32-bit word `j` of a 64-byte block. -/
def blockWord (block : List Nat) (j : Nat) : Nat :=
  block.getD (4 * j) 0 + 256 * block.getD (4 * j + 1) 0 +
    65536 * block.getD (4 * j + 2) 0 + 16777216 * block.getD (4 * j + 3) 0

/-- Process one 64-byte block, updating the running MD5 state. -/
def md5Block (st : Nat × Nat × Nat × Nat) (block : List Nat) : Nat × Nat × Nat × Nat :=
  let r := (List.range 64).foldl
    (fun (s : Nat × Nat × Nat × Nat) i =>
      let (a, b, c, d) := s
      let rot := rotl32 (add32 (add32 a (md5F i b c d))
        (add32 (md5K.getD i 0) (blockWord block (md5G i)))) (md5S.getD i 0)
      (d, add32 b rot, b, c)) st
  match st, r with
  | (a0, b0, c0, d0), (a, b, c, d) => (add32 a0 a, add32 b0 b, add32 c0 c, add32 d0 d)

/-- MD5 padding: append `0x80`, zeros to 56 mod 64, then the bit length
as 8 little-endian bytes. -/
def md5Pad (msg : List Nat) : List Nat :=
  let len := msg.length
  let zeros := (119 - len % 64) % 64
  let bitLen := 8 * len % 2 ^ 64
  msg ++ [128] ++ List.replicate zeros 0 ++
    ((List.range 8).map (fun i => bitLen / 2 ^ (8 * i) % 256))

/-- Fold `n` 64-byte blocks of `bytes` into the state. -/
def md5Blocks : Nat → (Nat × Nat × Nat × Nat) → List Nat → Nat × Nat × Nat × Nat
  | 0, st, _ => st
  | n + 1, st, bytes => md5Blocks n (md5Block st (bytes.take 64)) (bytes.drop 64)

/-- Little-endian byte rendering of one 32-bit word. -/
def wordLE (x : Nat) : List Nat :=
  [x % 256, x / 256 % 256, x / 65536 % 256, x / 16777216 % 256]

/-- MD5 digest (16 bytes) of a byte string. -/
def md5Bytes (msg : List Nat) : List Nat :=
  let padded := md5Pad msg
  match md5Blocks (padded.length / 64) (0x67452301, 0xefcdab89, 0x98badcfe, 0x10325476) padded with
  | (a, b, c, d) => wordLE a ++ wordLE b ++ wordLE c ++ wordLE d

/-- Python `hashlib.md5(bytes).hexdigest()`: lower-case hex MD5 of a byte string. -/
def md5Hex (msg : List Nat) : String := bytesToHex (md5Bytes msg)

/-! ## String helpers (Python `in`, `lower`, `strip`, `lstrip`, `rstrip`) -/

/-- Contiguous-sublist test over character lists (helper for Python `in`). -/
def listContainsSub (sub : List Char) : List Char → Bool
  | [] => sub.isEmpty
  | c :: tl => sub.isPrefixOf (c :: tl) || listContainsSub sub tl

/-- Python `sub in s` on strings: contiguous substring containment. -/
def containsSubstr (s sub : String) : Bool := listContainsSub sub.data s.data

/-- Python `str.lower()` (ASCII case folding, as used by the source). -/
def toLowerStr (s : String) : String := String.mk (s.data.map Char.toLower)

/-- Python `str.lstrip('/')`: remove leading slashes. -/
def lstripSlash (s : String) : String := String.mk (s.data.dropWhile (fun c => c = '/'))

/-- Python `str.rstrip('/')`: remove trailing slashes. -/
def rstripSlash (s : String) : String :=
  String.mk ((s.data.reverse.dropWhile (fun c => c = '/')).reverse)

/-- Python `", ".join(xs)`. -/
def joinComma : List String → String
  | [] => ""
  | [x] => x
  | x :: xs => x ++ ", " ++ joinComma xs

/-- Whitespace stripping on character lists. -/
def stripList (l : List Char) : List Char :=
  ((l.dropWhile Char.isWhitespace).reverse.dropWhile Char.isWhitespace).reverse

/-- Python `str.strip()`. -/
def pyStrip (s : String) : String := String.mk (stripList s.data)

/-- Python `str.startswith(pre)`. -/
def startsWithStr (s pre : String) : Bool := pre.data.isPrefixOf s.data

/-- Drop the first `n` characters of a string. -/
def dropStr (s : String) (n : Nat) : String := String.mk (s.data.drop n)

/-- Split a character list on a separator character, keeping empty
pieces (Python `str.split(sep)` / `str.splitOn`). -/
def splitOnChar (sep : Char) : List Char → List (List Char)
  | [] => [[]]
  | c :: tl =>
    let r := splitOnChar sep tl
    if c = sep then [] :: r
    else
      match r with
      | h :: t => (c :: h) :: t
      | [] => [[c]]

/-! ## Path helpers (the `pathlib.Path` operations used by the source,
modelled on POSIX path strings) -/

/-- Python `Path(p).name`: final non-empty path component. -/
def pathName (p : String) : String :=
  String.mk (((splitOnChar '/' p.data).filter (fun c => !c.isEmpty)).getLastD [])

/-- Index of the last `.` in a character list, if any. -/
def rfindDot : List Char → Option Nat
  | [] => none
  | c :: tl =>
    match rfindDot tl with
    | some i => some (i + 1)
    | none => if c = '.' then some 0 else none

/-- Python `Path(p).stem`: final component without its last extension
(`pathlib`: the suffix starts at the last dot if that dot is neither the
first nor the last character of the name). -/
def pathStem (p : String) : String :=
  let name := pathName p
  match rfindDot name.data with
  | some i => if 0 < i ∧ i < name.data.length - 1 then String.mk (name.data.take i) else name
  | none => name

/-- Lower-cased extension of the final path component (after the last
dot), used to model `mimetypes.guess_type`. -/
def pathExt (p : String) : String :=
  let name := pathName p
  match rfindDot name.data with
  | some i => if 0 < i ∧ i < name.data.length - 1 then
      toLowerStr (String.mk (name.data.drop (i + 1))) else ""
  | none => ""

/-- Python `urlparse(u).path`: the path part of a URL (after the authority,
before any query or fragment). -/
def urlPath (u : String) : String :=
  let rest :=
    if startsWithStr u "https://" then dropStr u 8
    else if startsWithStr u "http://" then dropStr u 7
    else u
  String.mk ((rest.data.dropWhile (fun c => c ≠ '/')).takeWhile
    (fun c => c ≠ '?' && c ≠ '#'))

/-- Python `mimetypes.guess_type`, modelled as the fixed extension table the
source relies on (image and video types); `none` when unknown. -/
def guessMime (p : String) : Option String :=
  let ext := pathExt p
  if ext = "jpg" ∨ ext = "jpeg" then some "image/jpeg"
  else if ext = "png" then some "image/png"
  else if ext = "gif" then some "image/gif"
  else if ext = "webp" then some "image/webp"
  else if ext = "mp4" then some "video/mp4"
  else none

/-! ## Base64 (Python `base64.b64encode`) -/

/-- The base64 alphabet. -/
def b64Alphabet : List Char :=
  "ABCDEFGHIJKLMNOPQRSTUVWXYZabcdefghijklmnopqrstuvwxyz0123456789+/".data

/-- Character for one 6-bit group. -/
def b64Char (n : Nat) : Char := b64Alphabet.getD n 'A'

/-- Standard base64 encoding with `=` padding. -/
def b64Encode : List Nat → String
  | [] => ""
  | [a] => String.mk [b64Char (a / 4), b64Char (a % 4 * 16), '=', '=']
  | [a, b] => String.mk [b64Char (a / 4), b64Char (a % 4 * 16 + b / 16), b64Char (b % 16 * 4), '=']
  | a :: b :: c :: rest =>
    String.mk [b64Char (a / 4), b64Char (a % 4 * 16 + b / 16),
      b64Char (b % 16 * 4 + c / 64), b64Char (c % 64)] ++ b64Encode rest

/-! ## JSON values

The request payloads and operation responses of the Gemini API are JSON;
the source manipulates them as Python dicts/lists. -/

/-- A JSON value (numbers restricted to the naturals the source uses). -/
inductive JVal where
  | null
  | bool (b : Bool)
  | num (n : Nat)
  | str (s : String)
  | arr (elems : List JVal)
  | obj (fields : List (String × JVal))

/-- Field lookup in an object's field list (Python `d[k]` / `k in d`). -/
def jGetObj : List (String × JVal) → String → Option JVal
  | [], _ => none
  | (k, v) :: tl, key => if k = key then some v else jGetObj tl key

/-- Field lookup on a JSON value; `none` when absent or not an object. -/
def jGet : JVal → String → Option JVal
  | .obj fs, key => jGetObj fs key
  | _, _ => none

/-- Python truthiness of a parsed JSON value. -/
def jTruthy : JVal → Bool
  | .null => false
  | .bool b => b
  | .num n => n != 0
  | .str s => s != ""
  | .arr xs => !xs.isEmpty
  | .obj fs => !fs.isEmpty

/-- Python `str()` of a parsed JSON value (scalar cases; the container
cases render placeholders and are not exercised by the spec claims). -/
def pyStr : JVal → String
  | .null => "None"
  | .bool true => "True"
  | .bool false => "False"
  | .num n => toString n
  | .str s => s
  | .arr _ => "[...]"
  | .obj _ => "\x7b...\x7d"

/-- Extract a list of strings from JSON array elements (all elements
must be strings, as `", ".join` requires in Python). -/
def jStrList : List JVal → Option (List String)
  | [] => some []
  | .str s :: tl => (jStrList tl).map (fun l => s :: l)
  | _ => none

/-! ## `GeminiVideoService.submit_video_generation_request`: payload -/

/-- Python truthiness of an optional byte string (`None` and `b""` are
falsy). -/
def bytesTruthy : Option (List Nat) → Bool
  | none => false
  | some b => !b.isEmpty

/-- Python truthiness of an optional string (`None` and `""` are falsy). -/
def strOptTruthy : Option String → Bool
  | none => false
  | some s => s != ""

/-- The `instances[0]` object of the submit payload: prompt, base64-coded
first image, and — only when both the second image bytes and its MIME
type are truthy — an `image2` entry. -/
def instanceData (prompt : String) (imageData : List Nat) (mimeType : String)
    (secondImageData : Option (List Nat)) (secondMimeType : Option String) : JVal :=
  let base := [("prompt", JVal.str prompt),
    ("image", JVal.obj [("bytesBase64Encoded", JVal.str (b64Encode imageData)),
      ("mimeType", JVal.str mimeType)])]
  if bytesTruthy secondImageData && strOptTruthy secondMimeType then
    JVal.obj (base ++ [("image2", JVal.obj
      [("bytesBase64Encoded", JVal.str (b64Encode (secondImageData.getD []))),
       ("mimeType", JVal.str (secondMimeType.getD ""))])])
  else JVal.obj base

/-- The full JSON payload POSTed to `:predictLongRunning`
(`aspectRatio` is added to `parameters` only when truthy). -/
def submitPayload (prompt : String) (imageData : List Nat) (mimeType aspectRatio : String)
    (secondImageData : Option (List Nat)) (secondMimeType : Option String) : JVal :=
  JVal.obj [("instances", JVal.arr
      [instanceData prompt imageData mimeType secondImageData secondMimeType]),
    ("parameters", JVal.obj
      (if aspectRatio != "" then [("aspectRatio", JVal.str aspectRatio)] else []))]

/-! ## `GeminiVideoService.extract_video_uri` -/

/-- The two distinct `RuntimeError` sites of `extract_video_uri`, plus a
model marker for the `TypeError`s Python itself would raise on
ill-typed responses (never reached by well-formed responses).
`safetyFiltered` carries the interpolated reasons string and the
filtered count exactly as the source's message does. -/
inductive ExtractErr where
  | safetyFiltered (reasonsStr : String) (filteredCount : JVal)
  | noVideoUri
  | typeErr

/-- The success branch of `extract_video_uri`: first generated sample's
`video.uri`, falling through to the generic failure otherwise. -/
def extractSuccessUri (genRes : JVal) : Except ExtractErr JVal :=
  match jGet genRes "generatedSamples" with
  | some samples =>
    if jTruthy samples then
      match samples with
      | .arr (sample :: _) =>
        match jGet sample "video" with
        | some video =>
          match jGet video "uri" with
          | some uri => .ok uri
          | none => .error .noVideoUri
        | none => .error .noVideoUri
      | .str _ => .error .noVideoUri
      | _ => .error .typeErr
    else .error .noVideoUri
  | none => .error .noVideoUri

/-- Source `extract_video_uri`: a completed operation response either carries
`raiMediaFilteredReasons` (→ safety-filter error with the joined reasons
and the filtered count, defaulting to `len(reasons)` for a list and `1`
otherwise) or a success sample with a video URI; anything else is the
generic no-video-URI failure. -/
def extractVideoUri (operationData : JVal) : Except ExtractErr JVal :=
  match jGet operationData "response" with
  | some responseData =>
    match jGet responseData "generateVideoResponse" with
    | some genRes =>
      match jGet genRes "raiMediaFilteredReasons" with
      | some reasons =>
        let reasonsStrOpt : Option String :=
          match reasons with
          | .arr xs => (jStrList xs).map joinComma
          | other => some (pyStr other)
        match reasonsStrOpt with
        | none => .error .typeErr
        | some rs =>
          let filteredCount :=
            match jGet genRes "raiMediaFilteredCount" with
            | some c => c
            | none =>
              match reasons with
              | .arr xs => JVal.num xs.length
              | _ => JVal.num 1
          .error (.safetyFiltered rs filteredCount)
      | none => extractSuccessUri genRes
    | none => .error .noVideoUri
  | none => .error .noVideoUri

/-! ## `GeminiVideoService.poll_operation_status`

The source's `while True` loop checks `elapsed > max_wait_seconds` at the
top of each iteration, polls once, returns the data when it reports
`done`, and otherwise sleeps `poll_interval_seconds` before the next
iteration.  Time is modelled abstractly: requests are instantaneous and
each sleep advances the clock by exactly the interval.  The loop is
embedded with a fuel argument (`maxWait + 2` iterations suffice whenever
the interval is at least one time-unit); `outOfFuel` is the model's
marker for divergence and is proved unreachable under that condition. -/

/-- The outcomes of one poll session: completion data, the timeout
`RuntimeError`, the polling-failure `RuntimeError`, or the model's
divergence marker. -/
inductive PollResult where
  | completed (data : JVal)
  | timeout (maxWaitSeconds : Nat)
  | pollFailed (msg : String)
  | outOfFuel

/-- Python `data.get(\x27done\x27, False)` under Python truthiness. -/
def pollDone (data : JVal) : Bool :=
  jTruthy ((jGet data "done").getD (.bool false))

/-- The poll loop: `responses k` is the outcome of the `k`-th status
request (`.error` models a `requests.RequestException`, including
non-2xx statuses surfaced by `raise_for_status`). -/
def pollAux (responses : Nat → Except String JVal) (maxWait interval : Nat) :
    Nat → Nat → Nat → PollResult
  | 0, _, _ => .outOfFuel
  | fuel + 1, k, elapsed =>
    if maxWait < elapsed then .timeout maxWait
    else
      match responses k with
      | .error e => .pollFailed e
      | .ok data =>
        if pollDone data then .completed data
        else pollAux responses maxWait interval fuel (k + 1) (elapsed + interval)

/-- Source `poll_operation_status` (defaults in the source:
`max_wait_seconds = 300`, `poll_interval_seconds = 10`). -/
def pollOperationStatus (responses : Nat → Except String JVal)
    (maxWait interval : Nat) : PollResult :=
  pollAux responses maxWait interval (maxWait + 2) 0 0

/-! ## `GeminiVideoService.download_video` -/

/-- An HTTP response as seen after `requests.get` followed redirects. -/
structure HttpResp where
  statusCode : Nat
  body : List Nat

/-- The API-key-appending step of `download_video`: the source tests the
*substrings* `'generativelanguage.googleapis.com' in uri` and
`'key=' in uri`, and picks `&` over `?` by `'?' in uri`. -/
def appendApiKey (apiKey uri : String) : String :=
  if containsSubstr uri "generativelanguage.googleapis.com" && !containsSubstr uri "key=" then
    uri ++ (if containsSubstr uri "?" then "&" else "?") ++ "key=" ++ apiKey
  else uri

/-- The failures of `download_video`: `raise_for_status` on a 4xx/5xx
final status, or the empty-content `RuntimeError`. -/
inductive DownloadErr where
  | httpError (status : Nat)
  | emptyContent

/-- Source `download_video`: append the API key when needed, fetch (redirects
already followed inside `fetch`), fail on 4xx/5xx, fail on an empty
body, otherwise return the bytes. -/
def downloadVideo (fetch : String → HttpResp) (apiKey uri : String) :
    Except DownloadErr (List Nat) :=
  let resp := fetch (appendApiKey apiKey uri)
  if 400 ≤ resp.statusCode then .error (.httpError resp.statusCode)
  else if resp.body.isEmpty then .error .emptyContent
  else .ok resp.body

/-! ## `GeminiVideoGenerator`

The generator's configuration (resolved base path, video directory, base
URL, API key) together with the observable outside world: the local
filesystem (`files`, absolute POSIX path ↦ byte content) and the
network (`urls`, URL ↦ response body bytes and `Content-Type` header). -/

/-- Generator configuration plus filesystem/network environment. -/
structure Env where
  files : String → Option (List Nat)
  urls : String → Option (List Nat × String)
  basePath : String
  videoDir : String
  baseUrl : Option String
  apiKey : String

/-- The failures raised on the generator paths the claims exercise. -/
inductive GenErr where
  | notAvailable
  | fileNotFound (path : String)
  | networkError (url : String)

/-- Source `is_url`: startswith on http and https scheme markers. -/
def isUrl (p : String) : Bool :=
  startsWithStr p "http://" || startsWithStr p "https://"

/-- Source `resolve_image_path`: `none` for URLs; absolute paths unchanged;
otherwise strip a leading `pub/media/` and resolve under
`base_path/pub/media/`. -/
def resolveImagePath (env : Env) (imagePath : String) : Option String :=
  if isUrl imagePath then none
  else if startsWithStr imagePath "/" then some imagePath
  else
    let p := if startsWithStr imagePath "pub/media/" then dropStr imagePath 10 else imagePath
    some (env.basePath ++ "/pub/media/" ++ lstripSlash p)

/-- The MIME-type selection of `download_image_from_url`: the
`Content-Type` header up to any `;`, falling back to
`mimetypes.guess_type` (default `image/jpeg`) when empty or
`application/octet-stream`. -/
def urlMime (url header : String) : String :=
  let m := String.mk (stripList ((splitOnChar ';' header.data).headD []))
  if m = "" ∨ m = "application/octet-stream" then (guessMime url).getD "image/jpeg"
  else m

/-- Source `download_image_from_url`: body bytes and MIME type, or the wrapped
`RequestException`. -/
def downloadImageFromUrl (env : Env) (url : String) :
    Except GenErr (List Nat × String) :=
  match env.urls url with
  | some (data, header) => .ok (data, urlMime url header)
  | none => .error (.networkError url)

/-- The `get_image_hash` helper of `generate_cache_key`: MD5 hex digest
of the image bytes, fetched from the URL or read from the local path. -/
def getImageHash (env : Env) (path : String) : Except GenErr String :=
  if isUrl path then
    match env.urls path with
    | some (data, _) => .ok (md5Hex data)
    | none => .error (.networkError path)
  else
    match env.files path with
    | some data => .ok (md5Hex data)
    | none => .error (.fileNotFound path)

/-- The digest input of the cache key:
`f"{image_hash}:{second_image_hash}:{prompt}:{aspect_ratio}"`. -/
def cacheKeyData (imageHash secondImageHash prompt aspectRatio : String) : String :=
  imageHash ++ ":" ++ secondImageHash ++ ":" ++ prompt ++ ":" ++ aspectRatio

/-- Source `generate_cache_key`: hash the first image, hash the second image
only when its path is truthy (else the empty string), then MD5 the
joined digest input. -/
def generateCacheKey (env : Env) (imagePath prompt aspectRatio : String)
    (secondImagePath : Option String) : Except GenErr String :=
  match getImageHash env imagePath with
  | .error e => .error e
  | .ok imageHash =>
    match (match secondImagePath with
           | some p => if p = "" then Except.ok "" else getImageHash env p
           | none => Except.ok "") with
    | .error e => .error e
    | .ok secondImageHash =>
      .ok (md5Hex (utf8Bytes (cacheKeyData imageHash secondImageHash prompt aspectRatio)))

/-! ### Cache lookup -/

/-- The dict returned by `get_cached_video` on a hit. -/
structure CachedVideo where
  fromCache : Bool
  videoUrl : String
  videoPath : String
  status : String

/-- The cache filename: veo_, then the cache key, then .mp4. -/
def videoFilename (cacheKey : String) : String := "veo_" ++ cacheKey ++ ".mp4"

/-- Full path of the cached video file inside the video directory. -/
def videoFilePath (env : Env) (cacheKey : String) : String :=
  env.videoDir ++ "/" ++ videoFilename cacheKey

/-- Source `_get_relative_video_path`: path of the video file relative to
`base_path` when the video directory lies under it, else the bare
filename. -/
def relativeVideoPath (env : Env) (filename : String) : String :=
  let full := env.videoDir ++ "/" ++ filename
  if startsWithStr full (env.basePath ++ "/") then dropStr full (env.basePath.length + 1)
  else filename

/-- The public URL of a cached video: base URL (right-stripped of `/`)
joined with the relative path, or a root-relative path without one. -/
def cachedVideoUrl (env : Env) (filename : String) : String :=
  match env.baseUrl with
  | some b => rstripSlash b ++ "/" ++ relativeVideoPath env filename
  | none => "/" ++ relativeVideoPath env filename

/-- Source `get_cached_video`: a pure existence check on
`veo_<cacheKey>.mp4` in the video directory. -/
def getCachedVideo (env : Env) (cacheKey : String) : Option CachedVideo :=
  if (env.files (videoFilePath env cacheKey)).isSome then
    some { fromCache := true,
           videoUrl := cachedVideoUrl env (videoFilename cacheKey),
           videoPath := videoFilePath env cacheKey,
           status := "completed" }
  else none

/-! ### Prompt enhancement -/

/-- Source `_get_image_reference_name`: URL → stem of the URL path (or
`"image"`); local path → stem (or the full name). -/
def getImageReferenceName (imagePath : String) : String :=
  if isUrl imagePath then
    let s := pathStem (urlPath imagePath)
    if s = "" then "image" else s
  else
    let s := pathStem imagePath
    if s = "" then pathName imagePath else s

/-- The keyword list checked against the lowered prompt. -/
def imageRefKeywords (n1 n2 : String) : List String :=
  ["image1", "image2", "first image", "second image",
   "image 1", "image 2", toLowerStr n1, toLowerStr n2]

/-- Source check `any(keyword in prompt_lower for keyword in [...])`. -/
def hasImageReference (prompt n1 n2 : String) : Bool :=
  (imageRefKeywords n1 n2).any (fun kw => containsSubstr (toLowerStr prompt) kw)

/-- The `Context: ...` sentence prepended by the enhancement (up to and
including the trailing blank before the original prompt). -/
def contextSentence (n1 n2 : String) : String :=
  "Context: You have two images - \x27" ++ n1 ++
    "\x27 (image1/first image) and \x27" ++ n2 ++ "\x27 (image2/second image). "

/-- Source `_enhance_prompt_with_image_references`: unchanged without
auto-reference or a truthy second path, unchanged when the prompt
already references the images, else prefixed with the context
sentence (the original prompt stripped). -/
def enhancePromptWithImageReferences (prompt imagePath : String)
    (secondImagePath : Option String) (autoReference : Bool) : String :=
  if !autoReference || !strOptTruthy secondImagePath then prompt
  else
    let n1 := getImageReferenceName imagePath
    let n2 := getImageReferenceName (secondImagePath.getD "")
    if hasImageReference prompt n1 n2 then prompt
    else contextSentence n1 n2 ++ pyStrip prompt

/-! ### `generate_video_from_image` -/

/-- Source `_load_image`: bytes, MIME type and source path string, from a URL
or a resolved local path. -/
def loadImage (env : Env) (imagePath : String) :
    Except GenErr (List Nat × String × String) :=
  if isUrl imagePath then
    match downloadImageFromUrl env imagePath with
    | .ok (d, m) => .ok (d, m, imagePath)
    | .error e => .error e
  else
    match resolveImagePath env imagePath with
    | some sp =>
      match env.files sp with
      | some d => .ok (d, (guessMime sp).getD "image/jpeg", sp)
      | none => .error (.fileNotFound imagePath)
    | none => .error (.fileNotFound imagePath)

/-- Load the second image only when its path is truthy (the source keeps
`second_image_data/mime/source` as `None` otherwise). -/
def loadSecond (env : Env) (secondImagePath : Option String) :
    Except GenErr (Option (List Nat × String × String)) :=
  match secondImagePath with
  | some sp =>
    if sp = "" then .ok none
    else
      match loadImage env sp with
      | .ok r => .ok (some r)
      | .error e => .error e
  | none => .ok none

/-- Everything `generate_video_from_image` computes before the cache
lookup: loaded images, the final (enhanced, possibly
silent-video-suffixed) prompt, and the cache key. -/
structure PreparedRequest where
  imageData : List Nat
  mimeType : String
  sourcePath : String
  secondImageData : Option (List Nat)
  secondMimeType : Option String
  secondSourcePath : Option String
  finalPrompt : String
  cacheKey : String

/-- The availability check, image loading, prompt finalization and
cache-key derivation of `generate_video_from_image`, in source order. -/
def prepareRequest (env : Env) (imagePath prompt aspectRatio : String)
    (silentVideo : Bool) (secondImagePath : Option String)
    (autoReferenceImages : Bool) : Except GenErr PreparedRequest :=
  if env.apiKey = "" then .error .notAvailable
  else
    match loadImage env imagePath with
    | .error e => .error e
    | .ok (imageData, mimeType, sourcePath) =>
      match loadSecond env secondImagePath with
      | .error e => .error e
      | .ok second =>
        let fp0 := enhancePromptWithImageReferences prompt imagePath
          secondImagePath autoReferenceImages
        let fp := if silentVideo then pyStrip fp0 ++ " silent video" else fp0
        match generateCacheKey env sourcePath fp aspectRatio
            (second.map (fun r => r.2.2)) with
        | .error e => .error e
        | .ok key =>
          .ok { imageData := imageData, mimeType := mimeType,
                sourcePath := sourcePath,
                secondImageData := second.map (fun r => r.1),
                secondMimeType := second.map (fun r => r.2.1),
                secondSourcePath := second.map (fun r => r.2.2),
                finalPrompt := fp, cacheKey := key }

/-- What `generate_video_from_image` does after preparing the request:
return the cached descriptor, or invoke the remote submission with the
exact payload of `submit_video_generation_request` (the transformation
of the remote response is outside the claims). -/
inductive GenOutcome where
  | cached (descriptor : CachedVideo)
  | submitted (cacheKey : String) (payload : JVal)

/-- Source `generate_video_from_image`. -/
def generateVideoFromImage (env : Env) (imagePath prompt aspectRatio : String)
    (silentVideo : Bool) (secondImagePath : Option String)
    (autoReferenceImages : Bool) : Except GenErr GenOutcome :=
  match prepareRequest env imagePath prompt aspectRatio silentVideo
      secondImagePath autoReferenceImages with
  | .error e => .error e
  | .ok r =>
    match getCachedVideo env r.cacheKey with
    | some c => .ok (.cached c)
    | none => .ok (.submitted r.cacheKey
        (submitPayload r.finalPrompt r.imageData r.mimeType aspectRatio
          r.secondImageData r.secondMimeType))

/-! ## Definitions used to state the claims -/

/-- Spec-side formula for the no-second-image cache key, written from
the spec's words: `MD5(hex(MD5(imageBytes)) + ":" + "" + ":" + prompt +
":" + aspectRatio)` rendered as a hex digest.  Compared against the
source-derived `generateCacheKey`. -/
def specCacheKeyFormula (imageBytes : List Nat) (prompt aspectRatio : String) : String :=
  md5Hex (utf8Bytes (md5Hex imageBytes ++ ":" ++ "" ++ ":" ++ prompt ++ ":" ++ aspectRatio))

/-- Host of a URI (spec-side notion: the text between `://` and the
next `/`, `?` or `#`). -/
def uriHost (u : String) : String :=
  let rest :=
    if startsWithStr u "https://" then dropStr u 8
    else if startsWithStr u "http://" then dropStr u 7
    else ""
  String.mk (rest.data.takeWhile (fun c => c ≠ '/' && c ≠ '?' && c ≠ '#'))

/-- The query-parameter assignments of a URI (spec-side notion: the
text after the first `?`, split on `&`). -/
def uriQueryParams (u : String) : List String :=
  match u.data.dropWhile (fun c => c ≠ '?') with
  | [] => []
  | _ :: rest => (splitOnChar '&' rest).map String.mk

/-- Whether a URI already carries the access credential as a query
parameter named `key` (spec-side notion). -/
def carriesKeyParam (u : String) : Bool :=
  (uriQueryParams u).any (fun p => startsWithStr p "key=")

/-- A poll-request outcome that succeeded but does not report `done`
(the hypothesis shape of the timeout claim). -/
def respNotDone (r : Except String JVal) : Bool :=
  match r with
  | .ok d => !pollDone d
  | .error _ => false

/-! ## Concrete fixtures for the witnesses -/

/-- Environment with one source image (a single `0xFF` byte) and the
matching cached video file already present. -/
def c1Env : Env :=
  { files := fun p =>
      if p = "/base/pub/media/cat.jpg" then some [255]
      else if p = "/base/pub/media/video/veo_8ebf90aa26f2e94c29636f5292672e38.mp4" then
        some [0, 1]
      else none,
    urls := fun _ => none,
    basePath := "/base", videoDir := "/base/pub/media/video",
    baseUrl := some "https://shop.example", apiKey := "k" }

/-- The prepared request for `c1Env` (`prompt "pan"`, ratio `16:9`). -/
def c1Prepared : PreparedRequest :=
  { imageData := [255], mimeType := "image/jpeg",
    sourcePath := "/base/pub/media/cat.jpg",
    secondImageData := none, secondMimeType := none, secondSourcePath := none,
    finalPrompt := "pan", cacheKey := "8ebf90aa26f2e94c29636f5292672e38" }

/-- Environment holding the spec's scenario image: 32 bytes of `0xFF`. -/
def c2Env : Env :=
  { files := fun p => if p = "/m/a.jpg" then some (List.replicate 32 255) else none,
    urls := fun _ => none,
    basePath := "/m", videoDir := "/m/video", baseUrl := none, apiKey := "k" }

/-- A completed operation response blocked by the safety filter. -/
def c3OpData : JVal :=
  JVal.obj [("done", JVal.bool true),
    ("response", JVal.obj [("generateVideoResponse", JVal.obj
      [("raiMediaFilteredReasons", JVal.arr [JVal.str "CELEBRITY"]),
       ("raiMediaFilteredCount", JVal.num 1)])])]

/-- The inner `response` object of `c3OpData`. -/
def c3Response : JVal :=
  JVal.obj [("generateVideoResponse", JVal.obj
    [("raiMediaFilteredReasons", JVal.arr [JVal.str "CELEBRITY"]),
     ("raiMediaFilteredCount", JVal.num 1)])]

/-- The inner `generateVideoResponse` object of `c3OpData`. -/
def c3GenRes : JVal :=
  JVal.obj [("raiMediaFilteredReasons", JVal.arr [JVal.str "CELEBRITY"]),
    ("raiMediaFilteredCount", JVal.num 1)]

/-- A video URI on the trusted host whose query carries a parameter
(`monkey`) that merely *ends* in the characters `key`. -/
def c7Uri : String :=
  "https://generativelanguage.googleapis.com/v1beta/files/abc?alt=media&monkey=1"

/-- Environment with two source images for the enhancement claim. -/
def c8Env : Env :=
  { files := fun p =>
      if p = "/base/pub/media/a.jpg" then some [1]
      else if p = "/base/pub/media/b.png" then some [2]
      else none,
    urls := fun _ => none,
    basePath := "/base", videoDir := "/base/pub/media/video",
    baseUrl := none, apiKey := "k" }

/-- The prepared request for `c8Env` (`prompt "zoom"`, two images). -/
def c8Prepared : PreparedRequest :=
  { imageData := [1], mimeType := "image/jpeg",
    sourcePath := "/base/pub/media/a.jpg",
    secondImageData := some [2], secondMimeType := some "image/png",
    secondSourcePath := some "/base/pub/media/b.png",
    finalPrompt := "Context: You have two images - \x27a\x27 (image1/first image) and \x27b\x27 (image2/second image). zoom",
    cacheKey := "539dae2636def768ec22afae5655fa00" }

/-! # Theorems -/

/-- Lemma: `jStrList` recovers a list of strings injected into JSON. -/
theorem jStrList_map (names : List String) :
    jStrList (names.map JVal.str) = some names := by
  induction names with
  | nil => rfl
  | cons x xs ih => simp [jStrList, ih]

/-- C2: for every image byte content, prompt and aspect-ratio string,
with no second image, the cache key computed by `generate_cache_key`
equals `MD5(hex(MD5(imageBytes)) + ":" + "" + ":" + prompt + ":" +
aspectRatio)` rendered as a hex digest: the image's raw bytes are hashed
on their own, the image hash, the empty second-hash field, the prompt
and the aspect ratio are joined with `":"`, and the concatenation is
hashed again. -/
theorem generateCacheKey_matches_spec_formula (env : Env) (path : String)
    (imageBytes : List Nat) (prompt aspectRatio : String)
    (hurl : isUrl path = false) (hfile : env.files path = some imageBytes) :
    generateCacheKey env path prompt aspectRatio none =
      Except.ok (specCacheKeyFormula imageBytes prompt aspectRatio) := by
  simp [generateCacheKey, getImageHash, hurl, hfile, specCacheKeyFormula, cacheKeyData]

/-- The spec's concrete scenario: `a.jpg` is 32 bytes of `0xFF`, prompt
`"zoom in"`, ratio `"16:9"`, no second image; the key is the MD5 the
formula predicts. -/
theorem generateCacheKey_matches_spec_formula_witness :
    generateCacheKey c2Env "/m/a.jpg" "zoom in" "16:9" none =
      Except.ok (specCacheKeyFormula (List.replicate 32 255) "zoom in" "16:9") ∧
    specCacheKeyFormula (List.replicate 32 255) "zoom in" "16:9" =
      "68945617fa171e7a02ee24197e3ff85f" :=
  ⟨generateCacheKey_matches_spec_formula c2Env "/m/a.jpg"
      (List.replicate 32 255) "zoom in" "16:9" rfl rfl, rfl⟩

/-- C9: a call to `submit_video_generation_request` whose second image
bytes are empty (or whose second MIME type is empty) builds a payload
with no `image2` field, identical to the payload with no second image at
all; yet the digest inputs of the corresponding cache keys (hash field
`md5("")` versus `""`) always differ. -/
theorem submitPayload_falsy_second_image (prompt : String) (imageData : List Nat)
    (mimeType aspectRatio secondMime : String) (secondData : List Nat)
    (imageHash prompt2 aspectRatio2 : String) :
    submitPayload prompt imageData mimeType aspectRatio (some []) (some secondMime) =
      submitPayload prompt imageData mimeType aspectRatio none none ∧
    submitPayload prompt imageData mimeType aspectRatio (some secondData) (some "") =
      submitPayload prompt imageData mimeType aspectRatio none none ∧
    jGet (instanceData prompt imageData mimeType (some []) (some secondMime)) "image2" =
      none ∧
    cacheKeyData imageHash (md5Hex []) prompt2 aspectRatio2 ≠
      cacheKeyData imageHash "" prompt2 aspectRatio2 := by
  refine ⟨rfl, ?_, rfl, ?_⟩
  · simp [submitPayload, instanceData, strOptTruthy]
  · intro h
    have hlen := congrArg String.length h
    have h32 : (md5Hex []).length = 32 := rfl
    simp [cacheKeyData, String.length_append, h32] at hlen

/-- C3: a completed operation response whose `generateVideoResponse`
carries `raiMediaFilteredReasons` makes `extract_video_uri` raise the
safety-filter error — carrying the joined reasons list and the exact
`raiMediaFilteredCount` of the response — and never the generic
no-video-URI failure. -/
theorem extractVideoUri_safety_filtered (opData responseData genRes : JVal)
    (names : List String) (cnt : JVal)
    (hresp : jGet opData "response" = some responseData)
    (hgen : jGet responseData "generateVideoResponse" = some genRes)
    (hreasons : jGet genRes "raiMediaFilteredReasons" =
      some (.arr (names.map JVal.str)))
    (hcnt : jGet genRes "raiMediaFilteredCount" = some cnt) :
    extractVideoUri opData = .error (.safetyFiltered (joinComma names) cnt) ∧
    extractVideoUri opData ≠ .error .noVideoUri := by
  have hmain : extractVideoUri opData =
      .error (.safetyFiltered (joinComma names) cnt) := by
    simp [extractVideoUri, hresp, hgen, hreasons, hcnt, jStrList_map]
  exact ⟨hmain, by simp [hmain]⟩

/-- A concrete filtered response: one reason `CELEBRITY`, count 1. -/
theorem extractVideoUri_safety_filtered_witness :
    extractVideoUri c3OpData =
      .error (.safetyFiltered (joinComma ["CELEBRITY"]) (JVal.num 1)) ∧
    extractVideoUri c3OpData ≠ .error .noVideoUri :=
  extractVideoUri_safety_filtered c3OpData c3Response c3GenRes
    ["CELEBRITY"] (JVal.num 1) rfl rfl rfl rfl

/-- When no poll response ever reports `done`, the loop reaches the
timeout branch as soon as the budget fits in the remaining fuel. -/
theorem pollAux_never_done (responses : Nat → Except String JVal)
    (maxWait interval : Nat) (hnd : ∀ k, respNotDone (responses k) = true) :
    ∀ fuel k elapsed, maxWait < elapsed + fuel * interval →
      pollAux responses maxWait interval (fuel + 1) k elapsed = .timeout maxWait := by
  intro fuel
  induction fuel with
  | zero =>
    intro k elapsed h
    simp only [Nat.zero_mul, Nat.add_zero] at h
    simp [pollAux, h]
  | succ n ih =>
    intro k elapsed h
    by_cases he : maxWait < elapsed
    · simp [pollAux, he]
    · have hk := hnd k
      cases hr : responses k with
      | error e => rw [hr] at hk; simp [respNotDone] at hk
      | ok d =>
        rw [hr] at hk
        simp only [respNotDone, Bool.not_eq_true'] at hk
        simp only [pollAux, he, if_false, hr, hk]
        exact ih (k + 1) (elapsed + interval) (by rw [Nat.succ_mul] at h; omega)

/-- C4: for every sequence of poll responses in which `done` is never
true, `poll_operation_status` terminates: once the elapsed wait exceeds
the configured maximum it raises the timeout error — a distinct
constructor from completion, from poll failures and from the model's
divergence marker — and never returns a result.  (The interval must be
at least one time-unit, as the integer-second defaults guarantee.) -/
theorem pollOperationStatus_times_out (responses : Nat → Except String JVal)
    (maxWait interval : Nat) (hpos : 1 ≤ interval)
    (hnd : ∀ k, respNotDone (responses k) = true) :
    pollOperationStatus responses maxWait interval = .timeout maxWait := by
  have h : maxWait < 0 + (maxWait + 1) * interval := by
    calc maxWait < maxWait + 1 := Nat.lt_succ_self _
    _ = (maxWait + 1) * 1 := (Nat.mul_one _).symm
    _ ≤ (maxWait + 1) * interval := Nat.mul_le_mul_left _ hpos
    _ = 0 + (maxWait + 1) * interval := (Nat.zero_add _).symm
  have hmain := pollAux_never_done responses maxWait interval hnd (maxWait + 1) 0 0 h
  simpa [pollOperationStatus] using hmain

/-- A never-done response stream with the source's default budget
(300 time-units, 10-unit interval) times out at 300. -/
theorem pollOperationStatus_times_out_witness :
    pollOperationStatus (fun _ => .ok (JVal.obj [("done", JVal.bool false)])) 300 10 =
      .timeout 300 :=
  pollOperationStatus_times_out _ 300 10 (by omega) (fun _ => rfl)

/-- C6: a download whose HTTP response body is empty ends in an error,
never in a zero-byte artifact; a non-empty body with a successful
(non-4xx/5xx) status is returned exactly. -/
theorem downloadVideo_empty_body_and_success (fetch : String → HttpResp)
    (apiKey uri : String) :
    ((fetch (appendApiKey apiKey uri)).body = [] →
      ∃ e, downloadVideo fetch apiKey uri = .error e) ∧
    ((fetch (appendApiKey apiKey uri)).statusCode < 400 →
      (fetch (appendApiKey apiKey uri)).body ≠ [] →
      downloadVideo fetch apiKey uri = .ok (fetch (appendApiKey apiKey uri)).body) := by
  constructor
  · intro hbody
    by_cases hs : 400 ≤ (fetch (appendApiKey apiKey uri)).statusCode
    · exact ⟨.httpError (fetch (appendApiKey apiKey uri)).statusCode,
        by simp [downloadVideo, hs]⟩
    · exact ⟨.emptyContent, by simp [downloadVideo, hs, hbody]⟩
  · intro hs hbody
    simp [downloadVideo, Nat.not_le.mpr hs, hbody]

/-- Evaluated instances: an empty 200 body errors, a non-empty 200 body
comes back byte-for-byte. -/
theorem downloadVideo_empty_body_and_success_witness :
    (∃ e, downloadVideo (fun _ => { statusCode := 200, body := [] }) "k" "u" =
      .error e) ∧
    downloadVideo (fun _ => { statusCode := 200, body := [9, 9] }) "k" "u" =
      .ok [9, 9] :=
  ⟨(downloadVideo_empty_body_and_success (fun _ => { statusCode := 200, body := [] })
      "k" "u").1 rfl,
   (downloadVideo_empty_body_and_success (fun _ => { statusCode := 200, body := [9, 9] })
      "k" "u").2 (by decide) (by decide)⟩

/-- C7 counterexample: `c7Uri` has the trusted host and carries no
`key` query parameter, yet `download_video` fetches it unmodified — the
source's substring test `'key=' in uri` is satisfied by the unrelated
parameter `monkey=1`, so no API key is appended, contradicting the
claim. -/
theorem downloadVideo_key_param_counterexample :
    uriHost c7Uri = "generativelanguage.googleapis.com" ∧
    carriesKeyParam c7Uri = false ∧
    appendApiKey "SECRET" c7Uri = c7Uri ∧
    c7Uri ≠ c7Uri ++ "?key=SECRET" ∧
    c7Uri ≠ c7Uri ++ "&key=SECRET" := by
  refine ⟨rfl, rfl, rfl, ?_, ?_⟩ <;> decide

/-- C7 (amended): `download_video` appends the configured API key as a
`key` query parameter — with `?` when the URI contains no `?` and `&`
otherwise — exactly when the URI contains the substring
`generativelanguage.googleapis.com` and does not contain the substring
`key=` anywhere; any URI containing `key=` (even inside another
parameter name such as `monkey=`) is fetched unmodified. -/
theorem appendApiKey_substring_check (apiKey u : String) :
    (containsSubstr u "generativelanguage.googleapis.com" = true →
      containsSubstr u "key=" = false →
      appendApiKey apiKey u =
        u ++ (if containsSubstr u "?" then "&" else "?") ++ "key=" ++ apiKey) ∧
    (containsSubstr u "key=" = true → appendApiKey apiKey u = u) := by
  constructor
  · intro h1 h2
    simp [appendApiKey, h1, h2]
  · intro h
    simp [appendApiKey, h]

/-- Evaluated instances of the amended behavior: a trusted URI without
`key=` gets the credential appended (with `?`), one with `key=` is left
alone. -/
theorem appendApiKey_substring_check_witness :
    appendApiKey "SECRET" "https://generativelanguage.googleapis.com/v1/files/x" =
      "https://generativelanguage.googleapis.com/v1/files/x" ++
        (if containsSubstr "https://generativelanguage.googleapis.com/v1/files/x" "?"
         then "&" else "?") ++ "key=" ++ "SECRET" ∧
    appendApiKey "SECRET" c7Uri = c7Uri :=
  ⟨(appendApiKey_substring_check "SECRET"
      "https://generativelanguage.googleapis.com/v1/files/x").1 rfl rfl,
   (appendApiKey_substring_check "SECRET" c7Uri).2 rfl⟩

/-- C1: when the cache key of a request names an existing video file in
the configured video directory, `generate_video_from_image` returns the
cached descriptor — `fromCache = true`, status `completed`, the file's
path and its public URL — and not a remote submission (the `cached`
outcome is the branch taken before `submit_video_generation_request`
would run); a second call with the same inputs returns the same
descriptor. -/
theorem generateVideoFromImage_cache_hit (env : Env) (ip p ar : String) (sv : Bool)
    (sp : Option String) (arf : Bool) (r : PreparedRequest)
    (hprep : prepareRequest env ip p ar sv sp arf = .ok r)
    (hfile : (env.files (videoFilePath env r.cacheKey)).isSome = true) :
    generateVideoFromImage env ip p ar sv sp arf =
      .ok (.cached
        { fromCache := true,
          videoUrl := cachedVideoUrl env (videoFilename r.cacheKey),
          videoPath := videoFilePath env r.cacheKey,
          status := "completed" }) ∧
    generateVideoFromImage env ip p ar sv sp arf =
      generateVideoFromImage env ip p ar sv sp arf := by
  refine ⟨?_, rfl⟩
  simp [generateVideoFromImage, hprep, getCachedVideo, hfile]

/-- Evaluated cache hit: the pre-existing `veo_<key>.mp4` of `c1Env` is
returned as a completed cached descriptor. -/
theorem generateVideoFromImage_cache_hit_witness :
    generateVideoFromImage c1Env "cat.jpg" "pan" "16:9" false none true =
      .ok (.cached
        { fromCache := true,
          videoUrl := cachedVideoUrl c1Env (videoFilename c1Prepared.cacheKey),
          videoPath := videoFilePath c1Env c1Prepared.cacheKey,
          status := "completed" }) ∧
    generateVideoFromImage c1Env "cat.jpg" "pan" "16:9" false none true =
      generateVideoFromImage c1Env "cat.jpg" "pan" "16:9" false none true :=
  generateVideoFromImage_cache_hit c1Env "cat.jpg" "pan" "16:9" false none true
    c1Prepared rfl rfl

/-- An empty pattern is a prefix of every list. -/
theorem isPrefixOf_nil_left (xs : List Char) :
    List.isPrefixOf ([] : List Char) xs = true := by
  cases xs <;> rfl

/-- Extending the scanned list on the right preserves prefixes. -/
theorem isPrefixOf_append_ext (l xs ys : List Char)
    (h : l.isPrefixOf xs = true) : l.isPrefixOf (xs ++ ys) = true := by
  induction l generalizing xs with
  | nil => exact isPrefixOf_nil_left _
  | cons c t ih =>
    cases xs with
    | nil => simp [List.isPrefixOf] at h
    | cons x xs' =>
      simp only [List.isPrefixOf, List.cons_append, Bool.and_eq_true] at h ⊢
      exact ⟨h.1, ih xs' h.2⟩

/-- The empty pattern is contained in every list. -/
theorem listContainsSub_nil (l : List Char) : listContainsSub [] l = true := by
  induction l with
  | nil => rfl
  | cons c t ih => simp [listContainsSub, ih]

/-- Containment is preserved by prepending. -/
theorem listContainsSub_append_right (sub xs ys : List Char)
    (h : listContainsSub sub ys = true) : listContainsSub sub (xs ++ ys) = true := by
  induction xs with
  | nil => simpa using h
  | cons c t ih => simp [listContainsSub, ih]

/-- Containment is preserved by appending. -/
theorem listContainsSub_append_left (sub xs ys : List Char)
    (h : listContainsSub sub xs = true) : listContainsSub sub (xs ++ ys) = true := by
  induction xs with
  | nil =>
    simp only [listContainsSub, List.isEmpty_iff] at h
    subst h
    exact listContainsSub_nil ys
  | cons c t ih =>
    simp only [listContainsSub, Bool.or_eq_true] at h ⊢
    cases h with
    | inl h1 =>
      left
      have := isPrefixOf_append_ext sub (c :: t) ys h1
      simpa using this
    | inr h2 => exact Or.inr (ih h2)

/-- The context sentence always references `image1`, so the
keyword check fires on any prompt that starts with it. -/
theorem hasImageReference_context (n1 n2 s : String) :
    hasImageReference (contextSentence n1 n2 ++ s) n1 n2 = true := by
  have hone : containsSubstr (toLowerStr (contextSentence n1 n2 ++ s)) "image1" = true := by
    show listContainsSub "image1".data
      ((contextSentence n1 n2 ++ s).data.map Char.toLower) = true
    simp only [contextSentence, String.data_append, List.map_append, List.append_assoc]
    exact listContainsSub_append_right _ _ _
      (listContainsSub_append_right _ _ _
        (listContainsSub_append_left _ _ _ (by decide)))
  simp [hasImageReference, imageRefKeywords, hone]

/-- C10: prompt enhancement is idempotent — applying
`_enhance_prompt_with_image_references` to its own output (same image
paths, same auto-reference setting) returns that output unchanged,
because the added context sentence itself contains the recognized
reference `image1`. -/
theorem enhancePrompt_idempotent (prompt imagePath : String)
    (secondImagePath : Option String) (autoReference : Bool) :
    enhancePromptWithImageReferences
        (enhancePromptWithImageReferences prompt imagePath secondImagePath autoReference)
        imagePath secondImagePath autoReference =
      enhancePromptWithImageReferences prompt imagePath secondImagePath autoReference := by
  by_cases hg : (!autoReference || !strOptTruthy secondImagePath) = true
  · simp [enhancePromptWithImageReferences, hg]
  · have hg' : (!autoReference || !strOptTruthy secondImagePath) = false := by
      simpa using hg
    by_cases hr : hasImageReference prompt (getImageReferenceName imagePath)
        (getImageReferenceName (secondImagePath.getD "")) = true
    · simp [enhancePromptWithImageReferences, hg', hr]
    · have hr' : hasImageReference prompt (getImageReferenceName imagePath)
          (getImageReferenceName (secondImagePath.getD "")) = false := by simpa using hr
      simp [enhancePromptWithImageReferences, hg', hr', hasImageReference_context]

/-- C8: for a two-image request with auto-reference enabled whose
prompt (with no surrounding whitespace) mentions none of the recognized
references — `image1`, `image2`, `first image`, `second image`,
`image 1`, `image 2`, or either filename stem — the final prompt is the
original prompt prefixed with the explicit context sentence naming
image1 and image2, that final prompt is the one the cache key is hashed
from, and on a cache miss it is the one submitted to the remote service;
a prompt that already contains such a reference is left unchanged. -/
theorem twoImage_prompt_enhancement (env : Env) (ip p ar sp : String)
    (hsp : sp ≠ "") :
    ((pyStrip p = p) →
      hasImageReference p (getImageReferenceName ip) (getImageReferenceName sp) = false →
      ∀ r : PreparedRequest,
        prepareRequest env ip p ar false (some sp) true = .ok r →
        r.finalPrompt =
          contextSentence (getImageReferenceName ip) (getImageReferenceName sp) ++ p ∧
        generateCacheKey env r.sourcePath r.finalPrompt ar r.secondSourcePath =
          .ok r.cacheKey ∧
        (getCachedVideo env r.cacheKey = none →
          generateVideoFromImage env ip p ar false (some sp) true =
            .ok (.submitted r.cacheKey (submitPayload r.finalPrompt r.imageData
              r.mimeType ar r.secondImageData r.secondMimeType)))) ∧
    (hasImageReference p (getImageReferenceName ip) (getImageReferenceName sp) = true →
      enhancePromptWithImageReferences p ip (some sp) true = p) := by
  constructor
  · intro htrim hnoref r hprep
    have hfp : enhancePromptWithImageReferences p ip (some sp) true =
        contextSentence (getImageReferenceName ip) (getImageReferenceName sp) ++ p := by
      simp [enhancePromptWithImageReferences, strOptTruthy, hsp, hnoref, htrim]
    have hprep0 := hprep
    unfold prepareRequest at hprep
    split at hprep
    · exact absurd hprep (by simp)
    · split at hprep
      · exact absurd hprep (by simp)
      · split at hprep
        · exact absurd hprep (by simp)
        · split at hprep
          · rename_i hfalse
            exact absurd hfalse (by simp)
          · dsimp only [] at hprep
            split at hprep
            · exact absurd hprep (by simp)
            · rename_i key heqKey
              injection hprep with hrec
              subst hrec
              refine ⟨by simp [hfp], ?_, ?_⟩
              · simpa [hfp] using heqKey
              · intro hmiss
                simp [generateVideoFromImage, hprep0, hmiss]
  · intro href
    simp [enhancePromptWithImageReferences, strOptTruthy, hsp, href]

/-- Evaluated two-image enhancement: for images `a.jpg`/`b.png` and the
prompt `"zoom"` (which mentions no reference), the prepared request
carries the context-prefixed prompt, hashes the cache key from it, and
submits it on a cache miss. -/
theorem twoImage_prompt_enhancement_witness :
    c8Prepared.finalPrompt =
      contextSentence (getImageReferenceName "a.jpg")
        (getImageReferenceName "b.png") ++ "zoom" ∧
    generateCacheKey c8Env c8Prepared.sourcePath c8Prepared.finalPrompt "16:9"
        c8Prepared.secondSourcePath = .ok c8Prepared.cacheKey ∧
    (getCachedVideo c8Env c8Prepared.cacheKey = none →
      generateVideoFromImage c8Env "a.jpg" "zoom" "16:9" false (some "b.png") true =
        .ok (.submitted c8Prepared.cacheKey (submitPayload c8Prepared.finalPrompt
          c8Prepared.imageData c8Prepared.mimeType "16:9" c8Prepared.secondImageData
          c8Prepared.secondMimeType))) :=
  (twoImage_prompt_enhancement c8Env "a.jpg" "zoom" "16:9" "b.png" (by decide)).1
    rfl rfl c8Prepared rfl

/-- Evaluated falsy-second-image payload identity at concrete inputs. -/
theorem submitPayload_falsy_second_image_witness :
    submitPayload "p" [7] "image/jpeg" "16:9" (some []) (some "image/png") =
      submitPayload "p" [7] "image/jpeg" "16:9" none none ∧
    submitPayload "p" [7] "image/jpeg" "16:9" (some [8]) (some "") =
      submitPayload "p" [7] "image/jpeg" "16:9" none none ∧
    jGet (instanceData "p" [7] "image/jpeg" (some []) (some "image/png")) "image2" =
      none ∧
    cacheKeyData "h" (md5Hex []) "p" "16:9" ≠ cacheKeyData "h" "" "p" "16:9" :=
  submitPayload_falsy_second_image "p" [7] "image/jpeg" "16:9" "image/png" [8]
    "h" "p" "16:9"

/-- Evaluated idempotence of the enhancement at concrete inputs. -/
theorem enhancePrompt_idempotent_witness :
    enhancePromptWithImageReferences
        (enhancePromptWithImageReferences "zoom" "a.jpg" (some "b.png") true)
        "a.jpg" (some "b.png") true =
      enhancePromptWithImageReferences "zoom" "a.jpg" (some "b.png") true :=
  enhancePrompt_idempotent "zoom" "a.jpg" (some "b.png") true

end ImageResizeAI
